import Mathlib

/-!
Verification development for the Emergency Safety Helper repository
(`nikbhavsar/emergency-AI`): a shallow embedding of the hazard-resolution
pipeline and of the React frontend (`frontend/src/App.js`,
`frontend/src/ga4.js`), with theorems about both.

The repository snapshot ships only the frontend sources and the readme;
the Flask backend (`backend/app.py`, `backend/gemini_client.py`,
`backend/guides_map.json`) is absent, so the pipeline is modelled from the
specification (each such definition is marked `Modelled from the spec:`).
External services (the AI classifier, the reasoning/synthesis service and
the fetch transport) are modelled as oracle parameters, so each theorem
quantifies over every possible external behaviour.
-/

namespace EmergencyAI

/-! ## String utilities (case-insensitive substring matching, JS-style trim) -/

/-- `leadsWith p s` is true when the char list `p` starts the char list `s`. -/
def leadsWith : List Char → List Char → Bool
  | [], _ => true
  | _ :: _, [] => false
  | a :: ps, b :: ss => a == b && leadsWith ps ss

/-- `occursIn p s` is true when the char list `p` occurs contiguously inside `s`. -/
def occursIn (p : List Char) : List Char → Bool
  | [] => leadsWith p []
  | c :: rest => leadsWith p (c :: rest) || occursIn p rest

/-- `strContains s p` : the string `p` occurs as a substring of `s`. -/
def strContains (s p : String) : Bool := occursIn p.data s.data

/-- ASCII lower-casing of a whole string. -/
def toLowerStr (s : String) : String := String.mk (s.data.map Char.toLower)

/-- Case-insensitive substring match: does `p` occur in `s`, ignoring case? -/
def containsCI (s p : String) : Bool := strContains (toLowerStr s) (toLowerStr p)

/-- Whitespace as recognised by JavaScript `String.prototype.trim` (the
characters that actually occur in this application's inputs). -/
def isWS (c : Char) : Bool := c == ' ' || c == '\t' || c == '\n' || c == '\r'

/-- Embedding of JavaScript `s.trim()`: strip leading and trailing whitespace. -/
def jsTrim (s : String) : String :=
  String.mk (((s.data.dropWhile isWS).reverse.dropWhile isWS).reverse)

/-- Embedding of the JavaScript expression `x || d` on an optional string field:
`undefined`/missing and the empty string are falsy and give the default. -/
def jsOr (x : Option String) (d : String) : String :=
  match x with
  | some v => if v = "" then d else v
  | none => d

/-! ## Backend data model (modelled from the spec) -/

/-- Modelled from the spec: the closed hazard taxonomy of §3 (the backend's
`guides_map.json` and classifier prompt are not in the snapshot). -/
def hazardTaxonomy : List String :=
  ["flood", "wildfire", "gas_leak", "vehicle_breakdown", "medical_emergency",
   "unknown_general"]

/-- Modelled from the spec: the curated medical-emergency indicator list of
§4.1 (the backend keyword list is not in the snapshot); case-insensitive
substring match, any match wins. -/
def medicalKeywords : List String :=
  ["unconscious", "severe bleeding", "chest pain", "choking", "heart attack",
   "stroke", "not breathing"]

/-- Modelled from the spec: the Medical Short-Circuit match test of §4.1. -/
def medicalMatch (text : String) : Bool :=
  medicalKeywords.any (fun k => containsCI text k)

/-- A rule of the Rule Classifier: a hazard and its trigger-pattern set (§4.2). -/
structure Rule where
  hazard : String
  patterns : List String
deriving DecidableEq

/-- A rule matches when any of its trigger patterns occurs in the text. -/
def ruleMatches (text : String) (r : Rule) : Bool :=
  r.patterns.any (fun p => containsCI text p)

/-- Modelled from the spec: the Rule Classifier of §4.2 — ordered rule list,
first rule whose pattern set matches wins, `none` is the "unknown" sentinel. -/
def ruleClassify (rules : List Rule) (text : String) : Option String :=
  (rules.find? (fun r => ruleMatches text r)).map Rule.hazard

/-- A Guide Catalog entry (§3): guide key, owning hazard, optional external
file handle and an expiry abstracted as an `expired` flag. -/
structure GuideEntry where
  guideKey : String
  hazard : String
  fileHandle : Option String
  expired : Bool
deriving DecidableEq

/-- The read-only Guide Catalog snapshot: ordered rules and guide entries. -/
structure Catalog where
  rules : List Rule
  guides : List GuideEntry
deriving DecidableEq

/-- Modelled from the spec: the Guide Resolver of §4.4 — pure ordered lookup
of the guide entries configured for a hazard, catalog order preserved. -/
def guidesFor (cat : Catalog) (h : String) : List GuideEntry :=
  cat.guides.filter (fun g => g.hazard == h)

/-- The external file handles of the given guides that are present and
unexpired — the documents usable for document-informed synthesis (§4.5). -/
def availableHandles (gs : List GuideEntry) : List String :=
  gs.filterMap (fun g => if g.expired then none else g.fileHandle)

/-! ## External oracles -/

/-- Outcome of one call to the external classification capability: a parsed
label (possibly garbage), an unparseable response, or a timeout/transport
failure. -/
inductive AIClassifyResult where
  | ok (label : String)
  | malformed
  | failure
deriving DecidableEq

/-- Outcome of one call to the external reasoning (synthesis) capability. -/
inductive SynthResult where
  | ok (text : String)
  | failure
deriving DecidableEq

/-- The external collaborators of §6, as response oracles: classification,
short-form synthesis (text, hazard) and document-informed synthesis
(text, hazard, attached file handles). -/
structure Env where
  classify : String → AIClassifyResult
  synthShort : String → String → SynthResult
  synthDocs : String → String → List String → SynthResult

/-! ## Pipeline (modelled from the spec) -/

/-- Modelled from the spec: §4.3 response validation — a label outside the
closed taxonomy, an empty or malformed response, or a timeout/transport
failure all collapse to `unknown_general`. -/
def validateAI (r : AIClassifyResult) : String :=
  match r with
  | .ok l => if hazardTaxonomy.contains l then l else "unknown_general"
  | .malformed => "unknown_general"
  | .failure => "unknown_general"

/-- Result of the classification stage: hazard, source tag, and how many
external classifier calls were issued. -/
structure ClassOut where
  hazard : String
  source : String
  calls : Nat
deriving DecidableEq

/-- Modelled from the spec: the classification stage (§4.2 then §4.3) —
rules first; the AI classifier is consulted only on the "unknown" sentinel. -/
def classifyStage (env : Env) (cat : Catalog) (text : String) : ClassOut :=
  match ruleClassify cat.rules text with
  | some h => ⟨h, "rules", 0⟩
  | none => ⟨validateAI (env.classify text), "ai", 1⟩

/-- Modelled from the spec: the fixed medical-emergency guidance string of
§4.1, instructing the user to call emergency services. -/
def medicalGuidance : String :=
  "This sounds like a medical emergency. Call your local emergency services (911) now."

/-- Modelled from the spec: the hand-authored generic safety steps of §4.5/§7,
the fallback floor that never fails. -/
def genericSafetySteps : String :=
  "Stay calm. Move away from immediate danger. Call your local emergency number if you feel unsafe."

/-- Modelled from the spec: short-form synthesis (§4.5) — on external failure
or an empty answer it returns the hand-authored generic steps, never an error. -/
def shortFormGuidance (env : Env) (text h : String) : String :=
  match env.synthShort text h with
  | .ok s => if s = "" then genericSafetySteps else s
  | .failure => genericSafetySteps

/-- Modelled from the spec: document-informed synthesis with fallback (§4.5):
attach the available documents; on failure or an empty answer fall back to
short-form. Returns the guidance and the number of synthesis calls issued. -/
def deepSynth (env : Env) (text h : String) (handles : List String) : String × Nat :=
  match env.synthDocs text h handles with
  | .ok s => if s = "" then (shortFormGuidance env text h, 2) else (s, 1)
  | .failure => (shortFormGuidance env text h, 2)

/-- Modelled from the spec: strategy selection of §4.5 — document-informed
only in deep mode with at least one guide and one present-and-unexpired
file handle; short-form otherwise. -/
def synthesize (env : Env) (mode text h : String) (keys handles : List String) :
    String × Nat :=
  if mode = "deep" && !keys.isEmpty && !handles.isEmpty then
    deepSynth env text h handles
  else
    (shortFormGuidance env text h, 1)

/-- The response contract of §3: a GuidanceResult. -/
structure GuidanceResult where
  hazard : String
  hazardSource : String
  guidesUsed : List String
  canDeepDive : Bool
  guidance : String
  mode : String
deriving DecidableEq

/-- External-call counters of one request, for the call-count assertions of §8. -/
structure Trace where
  classifyCalls : Nat
  synthCalls : Nat
deriving DecidableEq

/-- Modelled from the spec: the Pipeline Orchestrator of §4.6 — medical
short-circuit, then classify, resolve guides, synthesize; returns the
response together with the external-call trace. -/
def runPipeline (env : Env) (cat : Catalog) (mode text : String) :
    GuidanceResult × Trace :=
  if medicalMatch text then
    ({ hazard := "medical_emergency", hazardSource := "rules", guidesUsed := [],
       canDeepDive := false, guidance := medicalGuidance, mode := mode },
     ⟨0, 0⟩)
  else
    let c := classifyStage env cat text
    let gs := guidesFor cat c.hazard
    let keys := gs.map GuideEntry.guideKey
    let handles := availableHandles gs
    ({ hazard := c.hazard, hazardSource := c.source, guidesUsed := keys,
       canDeepDive := !keys.isEmpty,
       guidance := (synthesize env mode text c.hazard keys handles).1,
       mode := mode },
     ⟨c.calls, (synthesize env mode text c.hazard keys handles).2⟩)

/-- An HTTP-level pipeline response: a GuidanceResult or a client error. -/
inductive ApiResponse where
  | ok (r : GuidanceResult)
  | clientError (status : Nat)
deriving DecidableEq

/-- Modelled from the spec: the `/api/help/deep` handler (§6) — 400 when
`situationText` is missing or empty, otherwise the deep pipeline. -/
def helpDeepEndpoint (env : Env) (cat : Catalog) (body : Option String) :
    ApiResponse × Trace :=
  match body with
  | none => (.clientError 400, ⟨0, 0⟩)
  | some t =>
      if t = "" then (.clientError 400, ⟨0, 0⟩)
      else
        let p := runPipeline env cat "deep" t
        (.ok p.1, p.2)

/-! ## Frontend embedding (`frontend/src/App.js`, both concatenated revisions) -/

/-- The data the frontend reads off a guidance response; optional fields model
JavaScript property access on a dynamic object. -/
structure RespData where
  hazard : Option String
  hazardSource : Option String
  guidesUsed : Option (List String)
  guidance : Option String
  mode : Option String
deriving DecidableEq

/-- The React component state used by `handleSubmit` and `handleReset`. -/
structure AppState where
  situationText : String
  mode : String
  loading : Bool
  result : Option RespData
  error : String
deriving DecidableEq

/-- Outcome of the `fetch` in `handleSubmit`: a parsed JSON response, a
non-ok HTTP status (`throw new Error('API error: ' + status)`), or a
transport/parse rejection carrying the thrown error's optional `message`. -/
inductive FetchOutcome where
  | ok (data : RespData)
  | httpError (status : Nat)
  | netFail (msg : Option String)
deriving DecidableEq

/-- The JSON body `JSON.stringify({ situationText: trimmed })`. -/
structure ReqBody where
  situationText : String
deriving DecidableEq

/-- One HTTP request issued by the frontend. -/
structure HttpRequest where
  url : String
  method : String
  contentType : String
  body : ReqBody
deriving DecidableEq

/-- The arguments of one `trackEvent({action, category, label})` call. -/
structure TrackArgs where
  action : String
  category : String
  label : String
deriving DecidableEq

/-- `App.js` first revision, line 5: `const API_BASE = 'http://127.0.0.1:5000'`. -/
def API_BASE_rev1 : String := "http://127.0.0.1:5000"

/-- Embedding of `.replace(/\/$/, '')`: remove one trailing `/` if present. -/
def stripTrailingSlash (s : String) : String :=
  if s.data.getLast? = some '/' then String.mk s.data.dropLast else s

/-- `App.js` second revision, lines 215–217:
`(process.env.REACT_APP_API_URL || 'http://127.0.0.1:5000').replace(/\/$/, '')`,
as a function of the optional environment variable. -/
def API_BASE_rev2 (envVar : Option String) : String :=
  stripTrailingSlash (jsOr envVar "http://127.0.0.1:5000")

/-- `const endpoint = mode === 'deep' ? '/api/help/deep' : '/api/help'`. -/
def endpointFor (mode : String) : String :=
  if mode = "deep" then "/api/help/deep" else "/api/help"

/-- Embedding of `handleSubmit` (identical in both revisions up to the
`API_BASE` constant, passed here as `base`, and a `console.log`): given the
pre-submit state and the fetch outcome, returns the post-submit state, the
list of HTTP requests issued, and the list of `trackEvent` calls fired, in
program order. -/
def handleSubmit (base : String) (st : AppState) (fr : FetchOutcome) :
    AppState × List HttpRequest × List TrackArgs :=
  let st0 : AppState := { st with error := "", result := none }
  let trimmed := jsTrim st.situationText
  if trimmed = "" then
    ({ st0 with error := "Please describe your situation." }, [], [])
  else
    let req : HttpRequest :=
      ⟨base ++ endpointFor st.mode, "POST", "application/json", ⟨trimmed⟩⟩
    let submitEv : TrackArgs := ⟨"submit_help_request", "help", st.mode⟩
    let failSt : AppState :=
      { st0 with loading := false, error := "Something went wrong. Please try again." }
    match fr with
    | .ok data =>
        ({ st0 with loading := false, result := some data },
         [req],
         [submitEv, ⟨"help_request_success", "help", jsOr data.hazard "unknown"⟩])
    | .httpError status =>
        (failSt,
         [req],
         [submitEv, ⟨"help_request_error", "help", "API error: " ++ toString status⟩])
    | .netFail msg =>
        (failSt,
         [req],
         [submitEv, ⟨"help_request_error", "help", jsOr msg "unknown_error"⟩])

/-- The constant event fired by `handleReset` in both revisions. -/
def resetEvent : TrackArgs := ⟨"help_form_reset", "help", "reset"⟩

/-- The constant event fired by `handleDonateClick` (second revision). -/
def donateEvent : TrackArgs := ⟨"click_donate", "support", "kofi_button"⟩

/-- `result.guidesUsed?.length` with JavaScript optional chaining:
`undefined > 0` is false, modelled as length 0. -/
def guidesLen (g : Option (List String)) : Nat :=
  match g with
  | some l => l.length
  | none => 0

/-- First revision, `App.js` lines 170–174: the Guides pill is rendered
whenever `result.guidesUsed?.length > 0`, showing `guidesUsed.join(', ')`. -/
def guidesPillRev1 (r : RespData) : Option String :=
  if 0 < guidesLen r.guidesUsed then
    some (String.intercalate ", " (r.guidesUsed.getD []))
  else none

/-- Second revision, `App.js` lines 407–411: the Guides pill is rendered only
when `result.guidesUsed?.length > 0 && mode === 'deep'`. -/
def guidesPillRev2 (r : RespData) (mode : String) : Option String :=
  if 0 < guidesLen r.guidesUsed ∧ mode = "deep" then
    some (String.intercalate ", " (r.guidesUsed.getD []))
  else none

/-! ## GA4 helpers (`frontend/src/ga4.js`) -/

/-- The browser `window`, reduced to what `ga4.js` inspects: the truthiness
of `window.gtag`; `none` models `typeof window === 'undefined'`. -/
structure GtagWindow where
  gtag : Bool
deriving DecidableEq

/-- One call issued to `window.gtag`. -/
inductive GtagCall where
  | ev (action category label : String) (value : Option Int)
  | page (path : String)
deriving DecidableEq

/-- Embedding of `trackEvent` (`ga4.js` lines 5–14): returns the list of
`gtag` calls issued — empty when there is no window or no `gtag`. -/
def trackEvent (win : Option GtagWindow) (action category label : String)
    (value : Option Int) : List GtagCall :=
  match win with
  | none => []
  | some w => if w.gtag then [.ev action category label value] else []

/-- Embedding of `trackPageView` (`ga4.js` lines 16–23). -/
def trackPageView (win : Option GtagWindow) (path : String) : List GtagCall :=
  match win with
  | none => []
  | some w => if w.gtag then [.page path] else []

/-! ## Concrete fixtures used by witnesses -/

/-- A concrete rule table in the shape of the readme's examples. -/
def defaultRules : List Rule :=
  [⟨"flood", ["flood", "water rising"]⟩,
   ⟨"wildfire", ["wildfire", "smoke"]⟩,
   ⟨"gas_leak", ["smell gas", "gas leak"]⟩,
   ⟨"vehicle_breakdown", ["car broke down", "flat tire"]⟩]

/-- A concrete guide table in the shape of the readme's examples. -/
def defaultGuides : List GuideEntry :=
  [⟨"flood_preparedness", "flood", some "files/flood-1", false⟩,
   ⟨"fema_are_you_ready", "flood", some "files/fema-1", false⟩,
   ⟨"wildfire_preparedness", "wildfire", none, false⟩]

/-- A concrete catalog snapshot. -/
def defaultCatalog : Catalog := ⟨defaultRules, defaultGuides⟩

/-- A well-behaved external environment. -/
def testEnv : Env :=
  ⟨fun _ => .ok "flood", fun _ _ => .ok "Short steps.", fun _ _ _ => .ok "Deep steps."⟩

/-- A misbehaving external environment: out-of-taxonomy classification label,
failing synthesis calls. -/
def badAIEnv : Env :=
  ⟨fun _ => .ok "dragon_attack", fun _ _ => .failure, fun _ _ _ => .failure⟩

/-! ## Helper lemmas -/

theorem genericSafetySteps_ne_empty : genericSafetySteps ≠ "" := by decide

theorem medicalGuidance_ne_empty : medicalGuidance ≠ "" := by decide

theorem shortFormGuidance_ne_empty (env : Env) (t h : String) :
    shortFormGuidance env t h ≠ "" := by
  unfold shortFormGuidance
  cases env.synthShort t h with
  | ok s =>
      by_cases hs : s = ""
      · simpa [hs] using genericSafetySteps_ne_empty
      · simp [hs]
  | failure => exact genericSafetySteps_ne_empty

theorem deepSynth_ne_empty (env : Env) (t h : String) (handles : List String) :
    (deepSynth env t h handles).1 ≠ "" := by
  unfold deepSynth
  cases env.synthDocs t h handles with
  | ok s =>
      by_cases hs : s = ""
      · simpa [hs] using shortFormGuidance_ne_empty env t h
      · simp [hs]
  | failure => exact shortFormGuidance_ne_empty env t h

theorem synthesize_ne_empty (env : Env) (mode t h : String)
    (keys handles : List String) : (synthesize env mode t h keys handles).1 ≠ "" := by
  unfold synthesize
  split
  · exact deepSynth_ne_empty env t h handles
  · exact shortFormGuidance_ne_empty env t h

theorem synthesize_fallback (env : Env) (mode t h : String)
    (keys handles : List String)
    (hc : keys = [] ∨ handles = [] ∨ env.synthDocs t h handles = .failure) :
    (synthesize env mode t h keys handles).1 = shortFormGuidance env t h := by
  unfold synthesize
  rcases hc with h1 | h2 | h3
  · simp [h1]
  · simp [h2]
  · split
    · unfold deepSynth
      rw [h3]
    · rfl

theorem find?_eq_of_first {α : Type} (p : α → Bool) :
    ∀ (l : List α) (i : Nat) (hi : i < l.length),
      p (l.get ⟨i, hi⟩) = true →
      (∀ j (hj : j < l.length), j < i → p (l.get ⟨j, hj⟩) = false) →
      l.find? p = some (l.get ⟨i, hi⟩)
  | [], i, hi, _, _ => absurd hi (by simp)
  | a :: tl, 0, _, hp, _ => by
      have hp' : p a = true := hp
      rw [List.find?_cons_of_pos _ hp']
      rfl
  | a :: tl, i + 1, hi, hp, hb => by
      have ha : p a = false := hb 0 (by simp) (Nat.succ_pos i)
      rw [List.find?_cons_of_neg _ (by simp [ha])]
      exact find?_eq_of_first p tl i (Nat.lt_of_succ_lt_succ hi) hp
        (fun j hj hji => hb (j + 1) (Nat.succ_lt_succ hj) (Nat.succ_lt_succ hji))

/-! ## Claim theorems -/

/-- Claim C1: for every input text matching a medical-emergency keyword, the
pipeline terminates at the Medical Short-Circuit and returns the fixed
response (`hazard = medical_emergency`, `hazardSource = rules`,
`guidesUsed = []`, `canDeepDive = false`, the call-emergency-services
guidance string), and no classifier call and no external synthesis call is
issued. -/
theorem medical_short_circuit_terminal (env : Env) (cat : Catalog)
    (mode text : String) (h : medicalMatch text = true) :
    runPipeline env cat mode text =
      ({ hazard := "medical_emergency", hazardSource := "rules",
         guidesUsed := [], canDeepDive := false, guidance := medicalGuidance,
         mode := mode }, ⟨0, 0⟩) := by
  simp [runPipeline, h]

/-- Witness for C1 at the concrete input "He is having chest pain". -/
theorem medical_short_circuit_terminal_witness :
    medicalMatch "He is having chest pain" = true ∧
    runPipeline testEnv defaultCatalog "normal" "He is having chest pain" =
      ({ hazard := "medical_emergency", hazardSource := "rules",
         guidesUsed := [], canDeepDive := false, guidance := medicalGuidance,
         mode := "normal" }, ⟨0, 0⟩) :=
  ⟨by decide,
   medical_short_circuit_terminal testEnv defaultCatalog "normal" _ (by decide)⟩

/-- Claim C2: past the medical check, if no rule matches then the AI classifier
is invoked exactly once and the resolved hazard is the validated response;
validation collapses an out-of-taxonomy label (hence also the empty label), a
malformed response, and a timeout/transport failure to `unknown_general`
(the pipeline is total, so the request never fails); if a rule matched the AI
classifier is never invoked. -/
theorem ai_fallback_classification (env : Env) (cat : Catalog)
    (mode text : String) (hmed : medicalMatch text = false) :
    (ruleClassify cat.rules text = none →
      (runPipeline env cat mode text).2.classifyCalls = 1 ∧
      (runPipeline env cat mode text).1.hazard = validateAI (env.classify text)) ∧
    (∀ hz, ruleClassify cat.rules text = some hz →
      (runPipeline env cat mode text).2.classifyCalls = 0) ∧
    (∀ l, hazardTaxonomy.contains l = false →
      validateAI (.ok l) = "unknown_general") ∧
    validateAI .malformed = "unknown_general" ∧
    validateAI .failure = "unknown_general" := by
  refine ⟨?_, ?_, ?_, rfl, rfl⟩
  · intro hr
    constructor <;> simp [runPipeline, hmed, classifyStage, hr]
  · intro hz hr
    simp [runPipeline, hmed, classifyStage, hr]
  · intro l hl
    show (if hazardTaxonomy.contains l then l else "unknown_general") = "unknown_general"
    rw [hl]
    rfl

/-- Witness for C2 at an input matching no rule, with an out-of-taxonomy AI
label: one classifier call, hazard resolved to `unknown_general`. -/
theorem ai_fallback_classification_witness :
    medicalMatch "I am very bored today" = false ∧
    ruleClassify defaultCatalog.rules "I am very bored today" = none ∧
    (runPipeline badAIEnv defaultCatalog "normal" "I am very bored today").2.classifyCalls = 1 ∧
    (runPipeline badAIEnv defaultCatalog "normal" "I am very bored today").1.hazard =
      "unknown_general" := by
  refine ⟨by decide, by decide, ?_, ?_⟩
  · exact ((ai_fallback_classification badAIEnv defaultCatalog "normal"
      "I am very bored today" (by decide)).1 (by decide)).1
  · have h := ((ai_fallback_classification badAIEnv defaultCatalog "normal"
      "I am very bored today" (by decide)).1 (by decide)).2
    rw [h]
    decide

/-- Claim C3: every deep-mode request with a supplied non-empty situation text
yields a successful GuidanceResult with `mode = "deep"` and non-empty guidance
text, whatever the catalog and the external services do; and whenever no guide
resolves, or no file handle is present and unexpired, or the document-informed
call fails, the guidance is exactly what short-form synthesis produces. -/
theorem deep_mode_never_document_error (env : Env) (cat : Catalog) (t : String)
    (ht : t ≠ "") :
    (helpDeepEndpoint env cat (some t)).1 = .ok (runPipeline env cat "deep" t).1 ∧
    (runPipeline env cat "deep" t).1.mode = "deep" ∧
    (runPipeline env cat "deep" t).1.guidance ≠ "" ∧
    (medicalMatch t = false →
      (guidesFor cat (classifyStage env cat t).hazard = [] ∨
        availableHandles (guidesFor cat (classifyStage env cat t).hazard) = [] ∨
        env.synthDocs t (classifyStage env cat t).hazard
          (availableHandles (guidesFor cat (classifyStage env cat t).hazard)) = .failure) →
      (runPipeline env cat "deep" t).1.guidance =
        shortFormGuidance env t (classifyStage env cat t).hazard) := by
  refine ⟨by simp [helpDeepEndpoint, ht], ?_, ?_, ?_⟩
  · unfold runPipeline
    split
    · rfl
    · rfl
  · unfold runPipeline
    split
    · exact medicalGuidance_ne_empty
    · exact synthesize_ne_empty env "deep" t _ _ _
  · intro hmed hc
    have hbool : ¬ medicalMatch t = true := by simp [hmed]
    unfold runPipeline
    rw [if_neg hbool]
    refine synthesize_fallback env "deep" t (classifyStage env cat t).hazard _ _ ?_
    rcases hc with h1 | h2 | h3
    · exact Or.inl (by rw [h1]; rfl)
    · exact Or.inr (Or.inl h2)
    · exact Or.inr (Or.inr h3)

/-- Witness for C3 at a flood input against an environment whose synthesis
calls all fail: the deep endpoint still answers with non-empty guidance. -/
theorem deep_mode_never_document_error_witness :
    (helpDeepEndpoint badAIEnv defaultCatalog (some "My basement is flooding")).1 =
      .ok (runPipeline badAIEnv defaultCatalog "deep" "My basement is flooding").1 ∧
    (runPipeline badAIEnv defaultCatalog "deep" "My basement is flooding").1.mode = "deep" ∧
    (runPipeline badAIEnv defaultCatalog "deep" "My basement is flooding").1.guidance ≠ "" := by
  have h := deep_mode_never_document_error badAIEnv defaultCatalog
    "My basement is flooding" (by decide)
  exact ⟨h.1, h.2.1, h.2.2.1⟩

/-- Claim C6: with the external classifier's answers held fixed on the input
text, two runs of the normal pipeline over the same catalog yield the same
hazard and the same guidesUsed sequence; and rule classification is
deterministic with first-matching-rule-wins priority: if rule `i` matches and
every earlier rule does not, the classifier returns rule `i`'s hazard. -/
theorem classification_deterministic :
    (∀ (env env' : Env) (cat : Catalog) (text : String),
      env.classify text = env'.classify text →
      (runPipeline env cat "normal" text).1.hazard =
        (runPipeline env' cat "normal" text).1.hazard ∧
      (runPipeline env cat "normal" text).1.guidesUsed =
        (runPipeline env' cat "normal" text).1.guidesUsed) ∧
    (∀ (rules : List Rule) (text : String) (i : Nat) (hi : i < rules.length),
      ruleMatches text (rules.get ⟨i, hi⟩) = true →
      (∀ j (hj : j < rules.length), j < i →
        ruleMatches text (rules.get ⟨j, hj⟩) = false) →
      ruleClassify rules text = some (rules.get ⟨i, hi⟩).hazard) := by
  constructor
  · intro env env' cat text hcl
    have hc : classifyStage env cat text = classifyStage env' cat text := by
      unfold classifyStage
      rw [hcl]
    by_cases hm : medicalMatch text = true
    · simp [runPipeline, hm]
    · have hm' : medicalMatch text = false := by simpa using hm
      simp [runPipeline, hm', hc]
  · intro rules text i hi hp hb
    unfold ruleClassify
    rw [find?_eq_of_first (fun r => ruleMatches text r) rules i hi hp hb]
    rfl

/-- Witness for C6: both conjuncts applied at concrete inputs — two runs with
the same environment agree, and the second (wildfire) rule wins on a text the
first (flood) rule does not match. -/
theorem classification_deterministic_witness :
    (runPipeline testEnv defaultCatalog "normal" "My basement is flooding").1.hazard =
      (runPipeline testEnv defaultCatalog "normal" "My basement is flooding").1.hazard ∧
    ruleClassify defaultRules "There is smoke outside" = some "wildfire" := by
  constructor
  · exact (classification_deterministic.1 testEnv testEnv defaultCatalog
      "My basement is flooding" rfl).1
  · have h := classification_deterministic.2 defaultRules "There is smoke outside" 1
      (by decide) (by decide)
      (fun j hj hji => by
        have hj0 : j = 0 := Nat.lt_one_iff.mp hji
        subst hj0
        show ruleMatches "There is smoke outside" ⟨"flood", ["flood", "water rising"]⟩ = false
        decide)
    exact h.trans (by decide)

/-- Claim C4: for every submission whose situation text trims to a non-empty
string, the submit handler issues exactly one HTTP POST with JSON body
`{situationText: <trimmed text>}` — to `base ++ "/api/help"` when the mode is
"normal" and to `base ++ "/api/help/deep"` when it is "deep" — and no other
request, whatever the fetch outcome. -/
theorem submit_single_request (base : String) (st : AppState) (fr : FetchOutcome)
    (h : jsTrim st.situationText ≠ "") :
    (handleSubmit base st fr).2.1 =
      [⟨base ++ endpointFor st.mode, "POST", "application/json",
        ⟨jsTrim st.situationText⟩⟩] ∧
    (st.mode = "normal" → base ++ endpointFor st.mode = base ++ "/api/help") ∧
    (st.mode = "deep" → base ++ endpointFor st.mode = base ++ "/api/help/deep") := by
  refine ⟨?_, ?_, ?_⟩
  · cases fr <;> simp [handleSubmit, h]
  · intro hm
    rw [hm, show endpointFor "normal" = "/api/help" from by decide]
  · intro hm
    rw [hm, show endpointFor "deep" = "/api/help/deep" from by decide]

/-- Witness for C4 at a concrete submission in each mode. -/
theorem submit_single_request_witness :
    (handleSubmit "http://127.0.0.1:5000"
        ⟨" I smell gas ", "normal", false, none, ""⟩ (.netFail none)).2.1 =
      [⟨"http://127.0.0.1:5000" ++ endpointFor "normal", "POST",
        "application/json", ⟨jsTrim " I smell gas "⟩⟩] ∧
    (handleSubmit "http://127.0.0.1:5000"
        ⟨" I smell gas ", "deep", false, none, ""⟩ (.netFail none)).2.1 =
      [⟨"http://127.0.0.1:5000" ++ endpointFor "deep", "POST",
        "application/json", ⟨jsTrim " I smell gas "⟩⟩] :=
  ⟨(submit_single_request "http://127.0.0.1:5000"
      ⟨" I smell gas ", "normal", false, none, ""⟩ (.netFail none) (by decide)).1,
   (submit_single_request "http://127.0.0.1:5000"
      ⟨" I smell gas ", "deep", false, none, ""⟩ (.netFail none) (by decide)).1⟩

/-- Claim C8: a submission whose situation text trims to the empty string
issues no request, fires no analytics event, sets the error message to
"Please describe your situation.", leaves the result `none`, and does not
touch the loading flag (so it stays false). -/
theorem empty_submit_no_request (base : String) (st : AppState) (fr : FetchOutcome)
    (h : jsTrim st.situationText = "") :
    handleSubmit base st fr =
      ({ st with error := "Please describe your situation.", result := none },
       [], []) ∧
    (handleSubmit base st fr).1.loading = st.loading := by
  have he : handleSubmit base st fr =
      ({ st with error := "Please describe your situation.", result := none },
       [], []) := by
    simp [handleSubmit, h]
  exact ⟨he, by rw [he]⟩

/-- Witness for C8 at a whitespace-only situation text. -/
theorem empty_submit_no_request_witness :
    handleSubmit "http://127.0.0.1:5000" ⟨"   ", "normal", false, none, ""⟩
        (.netFail none) =
      (⟨"   ", "normal", false, none, "Please describe your situation."⟩, [], []) :=
  ((empty_submit_no_request "http://127.0.0.1:5000"
      ⟨"   ", "normal", false, none, ""⟩ (.netFail none) (by decide)).1).trans
    (by decide)

/-- Claim C9: trackEvent and trackPageView are total and guarded — with no
window, or with a falsy `window.gtag`, they issue no gtag call; otherwise each
issues exactly one gtag call forwarding its arguments. -/
theorem ga4_guarded_total (a c l : String) (v : Option Int) (p : String) :
    (trackEvent none a c l v = [] ∧ trackPageView none p = []) ∧
    (∀ w : GtagWindow, w.gtag = false →
      trackEvent (some w) a c l v = [] ∧ trackPageView (some w) p = []) ∧
    (∀ w : GtagWindow, w.gtag = true →
      trackEvent (some w) a c l v = [.ev a c l v] ∧
      trackPageView (some w) p = [.page p]) := by
  refine ⟨⟨rfl, rfl⟩, ?_, ?_⟩ <;>
    · intro w hw
      constructor <;> simp [trackEvent, trackPageView, hw]

/-- Witness for C9 at concrete arguments, with and without a usable gtag. -/
theorem ga4_guarded_total_witness :
    trackEvent (some ⟨true⟩) "submit_help_request" "help" "normal" none =
      [.ev "submit_help_request" "help" "normal" none] ∧
    trackEvent (some ⟨false⟩) "submit_help_request" "help" "normal" none = [] ∧
    trackPageView none "/" = [] :=
  ⟨((ga4_guarded_total "submit_help_request" "help" "normal" none "/").2.2
      ⟨true⟩ rfl).1,
   ((ga4_guarded_total "submit_help_request" "help" "normal" none "/").2.1
      ⟨false⟩ rfl).1,
   ((ga4_guarded_total "submit_help_request" "help" "normal" none "/").1).2⟩

/-- Claim C10: with the REACT_APP_API_URL environment variable unset, both
revisions of `API_BASE` produce the same two request URLs,
`http://127.0.0.1:5000/api/help` and `http://127.0.0.1:5000/api/help/deep`;
and the second revision strips exactly one trailing `/` from a configured
base URL (a base without a trailing `/` is left unchanged). -/
theorem api_base_equivalence :
    API_BASE_rev2 none = API_BASE_rev1 ∧
    API_BASE_rev1 ++ endpointFor "normal" = "http://127.0.0.1:5000/api/help" ∧
    API_BASE_rev1 ++ endpointFor "deep" = "http://127.0.0.1:5000/api/help/deep" ∧
    API_BASE_rev2 none ++ endpointFor "normal" = "http://127.0.0.1:5000/api/help" ∧
    API_BASE_rev2 none ++ endpointFor "deep" = "http://127.0.0.1:5000/api/help/deep" ∧
    (∀ u : String, u ≠ "" → API_BASE_rev2 (some u) = stripTrailingSlash u) ∧
    (∀ t : String, stripTrailingSlash (t ++ "/") = t) ∧
    (∀ t : String, t.data.getLast? ≠ some '/' → stripTrailingSlash t = t) := by
  refine ⟨by decide, by decide, by decide, by decide, by decide, ?_, ?_, ?_⟩
  · intro u hu
    simp [API_BASE_rev2, jsOr, hu]
  · intro t
    unfold stripTrailingSlash
    rw [String.data_append, show ("/" : String).data = ['/'] from rfl,
      List.getLast?_concat, if_pos rfl, List.dropLast_concat]
  · intro t ht
    unfold stripTrailingSlash
    rw [if_neg ht]

/-- Witness for C10: the trailing-slash stripping applied at the deployed
backend URL with and without a trailing slash. -/
theorem api_base_equivalence_witness :
    API_BASE_rev2 (some "https://emergency-ai-backend.onrender.com/") =
      stripTrailingSlash "https://emergency-ai-backend.onrender.com/" ∧
    stripTrailingSlash ("https://emergency-ai-backend.onrender.com" ++ "/") =
      "https://emergency-ai-backend.onrender.com" :=
  ⟨api_base_equivalence.2.2.2.2.2.1 "https://emergency-ai-backend.onrender.com/"
      (by decide),
   api_base_equivalence.2.2.2.2.2.2.1 "https://emergency-ai-backend.onrender.com"⟩

/-- Claim C5 counterexample: the claim "none of [the trackEvent arguments]
contains situationText" fails as stated — on the submission whose situation
text is "help", every emitted event has category "help", which contains the
situationText as a substring (and the submit event's label "normal" is not
derived from the text either, showing the coincidence, not a leak). -/
theorem analytics_contains_text_cex :
    (handleSubmit "http://127.0.0.1:5000" ⟨"help", "normal", false, none, ""⟩
        (.ok ⟨some "flood", some "rules", some ["flood_preparedness"],
              some "Steps.", some "normal"⟩)).2.2 =
      [⟨"submit_help_request", "help", "normal"⟩,
       ⟨"help_request_success", "help", "flood"⟩] ∧
    jsTrim "help" = "help" ∧
    strContains "help" "help" = true := by decide

/-- Claim C5 (amended): every analytics event emitted by the submit handler
has category "help", one of the three fixed action strings, and a label drawn
only from the mode, the response's hazard field (defaulted to "unknown"), or
an error message (defaulted to "unknown_error"); the emitted events are
independent of situationText — two submissions differing only in their
(non-empty-trimming) situation text emit identical events — and the reset and
donate handlers fire fixed-string events; an argument may still coincide with
text the user typed, as the counterexample shows. -/
theorem analytics_independent_of_situation (base : String) (st st' : AppState)
    (fr : FetchOutcome) :
    (∀ ev ∈ (handleSubmit base st fr).2.2,
      ev.category = "help" ∧
      (ev.action = "submit_help_request" ∨ ev.action = "help_request_success" ∨
        ev.action = "help_request_error") ∧
      (ev.label = st.mode ∨
        (∃ d, fr = .ok d ∧ ev.label = jsOr d.hazard "unknown") ∨
        (∃ n, fr = .httpError n ∧ ev.label = "API error: " ++ toString n) ∨
        (∃ m, fr = .netFail m ∧ ev.label = jsOr m "unknown_error"))) ∧
    (st.mode = st'.mode → jsTrim st.situationText ≠ "" →
      jsTrim st'.situationText ≠ "" →
      (handleSubmit base st fr).2.2 = (handleSubmit base st' fr).2.2) ∧
    resetEvent = ⟨"help_form_reset", "help", "reset"⟩ ∧
    donateEvent = ⟨"click_donate", "support", "kofi_button"⟩ := by
  refine ⟨?_, ?_, rfl, rfl⟩
  · intro ev hev
    by_cases h : jsTrim st.situationText = ""
    · simp [handleSubmit, h] at hev
    · cases fr with
      | ok d =>
          simp [handleSubmit, h] at hev
          rcases hev with h1 | h1 <;> subst h1
          · exact ⟨rfl, Or.inl rfl, Or.inl rfl⟩
          · exact ⟨rfl, Or.inr (Or.inl rfl), Or.inr (Or.inl ⟨d, rfl, rfl⟩)⟩
      | httpError n =>
          simp [handleSubmit, h] at hev
          rcases hev with h1 | h1 <;> subst h1
          · exact ⟨rfl, Or.inl rfl, Or.inl rfl⟩
          · exact ⟨rfl, Or.inr (Or.inr rfl), Or.inr (Or.inr (Or.inl ⟨n, rfl, rfl⟩))⟩
      | netFail m =>
          simp [handleSubmit, h] at hev
          rcases hev with h1 | h1 <;> subst h1
          · exact ⟨rfl, Or.inl rfl, Or.inl rfl⟩
          · exact ⟨rfl, Or.inr (Or.inr rfl),
              Or.inr (Or.inr (Or.inr ⟨m, rfl, rfl⟩))⟩
  · intro hm h1 h2
    cases fr <;> simp [handleSubmit, h1, h2, hm]

/-- Witness for C5 (amended): two submissions that differ only in their
situation text emit the same events, and those events are the enumerated ones. -/
theorem analytics_independent_of_situation_witness :
    (handleSubmit "http://127.0.0.1:5000"
        ⟨"I smell gas", "normal", false, none, ""⟩ (.httpError 503)).2.2 =
      (handleSubmit "http://127.0.0.1:5000"
        ⟨"My basement is flooding", "normal", false, none, ""⟩
        (.httpError 503)).2.2 :=
  (analytics_independent_of_situation "http://127.0.0.1:5000"
      ⟨"I smell gas", "normal", false, none, ""⟩
      ⟨"My basement is flooding", "normal", false, none, ""⟩
      (.httpError 503)).2.1 rfl (by decide) (by decide)

/-- Claim C7 counterexample: in the second revision of the App component, a
result with a non-empty guidesUsed sequence rendered while the selected mode
is "normal" shows no Guides pill at all — the pill is not rendered
"regardless of the selected mode". -/
theorem guides_pill_mode_cex :
    guidesPillRev2
      ⟨some "flood", some "rules", some ["flood_preparedness", "fema_are_you_ready"],
       some "Steps.", some "normal"⟩ "normal" = none ∧
    0 < guidesLen (some ["flood_preparedness", "fema_are_you_ready"]) ∧
    guidesPillRev1
      ⟨some "flood", some "rules", some ["flood_preparedness", "fema_are_you_ready"],
       some "Steps.", some "normal"⟩ =
      some "flood_preparedness, fema_are_you_ready" := by decide

/-- Claim C7 (amended): whenever guidesUsed is non-empty, the first revision
renders the Guides pill with the keys joined by ", " in exactly the guidesUsed
order, regardless of the selected mode; the second revision renders that same
pill exactly when the selected mode is "deep" and renders none otherwise. -/
theorem guides_pill_join_order (r : RespData) (m : String)
    (h : 0 < guidesLen r.guidesUsed) :
    guidesPillRev1 r = some (String.intercalate ", " (r.guidesUsed.getD [])) ∧
    guidesPillRev2 r m =
      (if m = "deep" then some (String.intercalate ", " (r.guidesUsed.getD []))
       else none) := by
  constructor
  · unfold guidesPillRev1
    rw [if_pos h]
  · unfold guidesPillRev2
    by_cases hm : m = "deep"
    · rw [if_pos ⟨h, hm⟩, if_pos hm]
    · rw [if_neg (fun hc => hm hc.2), if_neg hm]

/-- Witness for C7 (amended) at a two-guide response in each mode. -/
theorem guides_pill_join_order_witness :
    guidesPillRev1 ⟨none, none, some ["flood_preparedness", "fema_are_you_ready"],
        none, none⟩ =
      some (String.intercalate ", " ["flood_preparedness", "fema_are_you_ready"]) ∧
    guidesPillRev2 ⟨none, none, some ["flood_preparedness", "fema_are_you_ready"],
        none, none⟩ "deep" =
      some (String.intercalate ", " ["flood_preparedness", "fema_are_you_ready"]) := by
  have h1 := guides_pill_join_order
    ⟨none, none, some ["flood_preparedness", "fema_are_you_ready"], none, none⟩
    "deep" (by decide)
  exact ⟨h1.1, by rw [h1.2]; rfl⟩

end EmergencyAI
